import Mathlib

/-!
Verification development for the DrissionPage JSON-RPC bridge
(`src/browser/drission/drission_bridge.py`) and its stealth helpers
(`src/browser/drission/stealth_helpers.py`).

The Python code is shallowly embedded:
* JSON values are the inductive `JVal`; Python truthiness, `int()` and
  `str()` coercions get explicit executable counterparts.
* Calls into the external DrissionPage driver are recorded as a trace of
  `DriverCall`s; their outcomes (return value or raised exception) are
  supplied by an `Oracle` consulted in call order.
* Random draws (`random.uniform`, `random.randint`, `random.choice`) are
  passed in as explicit arguments instead of being sampled.
* `time.sleep` has no observable effect and is not recorded.
-/

/-- JSON-ish values: the payloads exchanged on the wire and the values
returned by the driver.  `bytes` stands for Python `bytes` objects
(screenshot payloads). -/
inductive JVal where
  | null
  | bool (b : Bool)
  | num (n : ℤ)
  | str (s : String)
  | arr (xs : List JVal)
  | obj (fs : List (String × JVal))
  | bytes (bs : List ℕ)

/-- Python truthiness (`if v:`) for the embedded JSON values. -/
def pyTruthy : JVal → Bool
  | .null => false
  | .bool b => b
  | .num n => n != 0
  | .str s => s != ""
  | .arr xs => !xs.isEmpty
  | .obj fs => !fs.isEmpty
  | .bytes bs => !bs.isEmpty

/-- Python `int(v)`: succeeds on numbers, booleans and integer-looking
strings, raises `TypeError`/`ValueError` (modelled as `Except.error` with
the message) otherwise. -/
def pyInt : JVal → Except String ℤ
  | .num n => .ok n
  | .bool b => .ok (if b then 1 else 0)
  | .str s =>
      match s.toInt? with
      | some n => .ok n
      | none => .error ("invalid literal for int() with base 10: " ++ s)
  | .null => .error "int() argument must be a string or a number, not NoneType"
  | .arr _ => .error "int() argument must be a string or a number, not list"
  | .obj _ => .error "int() argument must be a string or a number, not dict"
  | .bytes _ => .error "invalid bytes for int()"

/-- Python `str(v)` as used inside f-strings (container reprs are
approximated; only scalars appear in the messages the claims touch). -/
def pyStr : JVal → String
  | .null => "None"
  | .bool b => if b then "True" else "False"
  | .num n => toString n
  | .str s => s
  | .arr _ => "[...]"
  | .obj _ => "\x7b...\x7d"
  | .bytes _ => "b..."

/-- Dictionary lookup on a JSON object (`d[k]` as `Option`); non-dicts
have no keys. -/
def jLookup (v : JVal) (k : String) : Option JVal :=
  match v with
  | .obj fs => fs.lookup k
  | _ => none

/-- Python `d.get(k, default)`. -/
def jGet (v : JVal) (k : String) (d : JVal) : JVal :=
  (jLookup v k).getD d

/-- Iterating a Python value as a string (`for char in text`); non-strings
raise `TypeError`. -/
def pyIterChars : JVal → Except String (List Char)
  | .str s => .ok s.toList
  | _ => .error "object is not iterable as text"

/-! ## Driver interface -/

/-- One call into the DrissionPage driver (or onto an element / rect object
obtained from it).  The arguments recorded are the ones the Python code
passes. -/
inductive DriverCall where
  | launch
  | get (url : JVal)
  | readUrl
  | readTitle
  | ele (selector : JVal)
  | rect
  | clickElem
  | readText
  | clear
  | inputChar (c : Char)
  | typeChar (c : Char)
  | inputText (t : JVal)
  | actionsClick (x y : ℤ)
  | actionsMove (x y : ℤ)
  | actionsMoveTo (x y : ℤ)
  | screenshotCall (fmt fullPage : JVal)
  | screenshotFallback
  | runJs (code : JVal)
  | scrollDown (n : ℤ)
  | scrollUp (n : ℤ)
  | scrollTop
  | scrollBottom
  | waitEleDisplayed (selector : JVal) (timeoutMs : ℤ)
  | quit

/-- Outcome of one driver call: a returned value, or a raised exception
with a flag telling whether it is a `TypeError` (the screenshot handler
catches exactly that class) and the exception message. -/
inductive DriverResp where
  | ok (v : JVal)
  | exn (isTypeError : Bool) (msg : String)

/-- The driver's behaviour during one request: outcome of the n-th driver
call made while handling it. -/
def Oracle : Type := ℕ → DriverResp

/-- Perform one driver call: record it and fetch its outcome from the
oracle (indexed by the number of calls already made). -/
def drv (o : Oracle) (c : DriverCall) (cs : List DriverCall) :
    DriverResp × List DriverCall :=
  (o cs.length, cs ++ [c])

/-! ## Stealth helpers (`stealth_helpers.py`) -/

/-- Python 3 `round` to an integer: round half to even. -/
def pythonRound (q : ℚ) : ℤ :=
  let f := ⌊q⌋
  let r := q - (f : ℚ)
  if r < 1/2 then f
  else if 1/2 < r then f + 1
  else if f % 2 = 0 then f else f + 1

/-- `_bezier_point(t, p0, p1, p2, p3)`: a point on a cubic Bézier curve. -/
def _bezier_point (t p0 p1 p2 p3 : ℚ) : ℚ :=
  (1 - t) ^ 3 * p0
    + 3 * (1 - t) ^ 2 * t * p1
    + 3 * (1 - t) * t ^ 2 * p2
    + t ^ 3 * p3

/-- `bezier_curve_points(start, end, num_points)`.  The random draws are
explicit arguments: `u1, v1, u2, v2` are the `random.uniform(0.2, 0.4)` /
`random.uniform(0.6, 0.8)` fractions and `n1..n4` the
`random.uniform(-spread, spread)` noises (passed post-scaling, so the
`sqrt`-based `spread` bound never needs to be computed here).  Coordinates
are rationals standing for Python floats; each output point is
`int(round(.))` of the curve point. -/
def bezier_curve_points (start endP : ℚ × ℚ) (u1 v1 u2 v2 n1 n2 n3 n4 : ℚ)
    (num_points : ℕ) : List (ℤ × ℤ) :=
  let x0 := start.1
  let y0 := start.2
  let x3 := endP.1
  let y3 := endP.2
  let dx := x3 - x0
  let dy := y3 - y0
  let x1 := x0 + dx * u1 + n1
  let y1 := y0 + dy * v1 + n2
  let x2 := x0 + dx * u2 + n3
  let y2 := y0 + dy * v2 + n4
  (List.range (num_points + 1)).map fun (i : ℕ) =>
    let t : ℚ := (i : ℚ) / (num_points : ℚ)
    (pythonRound (_bezier_point t x0 x1 x2 x3),
     pythonRound (_bezier_point t y0 y1 y2 y3))

/-- Events observable while `human_type` runs: an attempted
`element.input(c)` for the i-th character, an attempted fallback
`element.type(c)`, and the per-character delay. -/
inductive THEvent where
  | inputCall (i : ℕ) (c : Char)
  | typeCall (i : ℕ) (c : Char)
  | delay (i : ℕ)
deriving DecidableEq

/-- Body of `human_type`, indexed by the current character position.
`inputOk i` / `typeOk i` tell whether the driver's `input` / `type` call
on the i-th character succeeds (raises otherwise).  A failed `input` is
followed by a fallback `type`; if that also fails the loop `break`s, so
no delay is taken for that character and nothing further happens. -/
def humanTypeAux (inputOk typeOk : ℕ → Bool) : ℕ → List Char → List THEvent
  | _, [] => []
  | i, c :: rest =>
    if inputOk i then
      .inputCall i c :: .delay i :: humanTypeAux inputOk typeOk (i + 1) rest
    else if typeOk i then
      .inputCall i c :: .typeCall i c :: .delay i ::
        humanTypeAux inputOk typeOk (i + 1) rest
    else
      [.inputCall i c, .typeCall i c]

/-- `human_type(element, text)`: the trace of input attempts and delays
(the delay durations themselves are time-only and carry no data). -/
def human_type (inputOk typeOk : ℕ → Bool) (text : List Char) : List THEvent :=
  humanTypeAux inputOk typeOk 0 text

/-- The trace `human_type` produces when every `element.input` call
succeeds: one input call per character, in order, each followed by one
delay. -/
def okTraceAux : ℕ → List Char → List THEvent
  | _, [] => []
  | i, c :: rest => .inputCall i c :: .delay i :: okTraceAux (i + 1) rest

/-- `okTraceAux` started at position 0. -/
def okTrace (text : List Char) : List THEvent :=
  okTraceAux 0 text

/-- The effective scroll delta of `random_scroll_jitter`: the sampled
`delta`, replaced by the `random.choice([-30, 30])` draw when it is
exactly zero. -/
def random_scroll_jitter_delta (delta choice : ℤ) : ℤ :=
  if delta = 0 then choice else delta

/-- The scroll call `random_scroll_jitter` issues for an effective delta:
`page.scroll.down(delta)` when positive, else `page.scroll.up(abs(delta))`. -/
def scroll_call_of_delta (d : ℤ) : DriverCall :=
  if 0 < d then .scrollDown d else .scrollUp |d|

/-- Magnitude of a scroll driver call. -/
def scrollCallMagnitude : DriverCall → ℤ
  | .scrollDown n => n
  | .scrollUp n => n
  | _ => 0

/-- `bezier_mouse_move(page, start, end)`: walks the randomly generated
Bézier points (passed in as the resolved random draw `pts`), trying
`page.actions.move` and, on failure, `page.actions.move_to`; if both fail
the whole move is abandoned (`break`).  Never raises. -/
def bezier_mouse_move (o : Oracle) : List (ℤ × ℤ) → List DriverCall → List DriverCall
  | [], cs => cs
  | (px, py) :: rest, cs =>
    match drv o (.actionsMove px py) cs with
    | (.ok _, c1) => bezier_mouse_move o rest c1
    | (.exn _ _, c1) =>
      match drv o (.actionsMoveTo px py) c1 with
      | (.ok _, c2) => bezier_mouse_move o rest c2
      | (.exn _ _, c2) => c2

/-- The driver calls `human_type` makes inside `handle_type_text`:
`element.input(c)` per character with the `element.type(c)` fallback, and
`break` when both fail (same control flow as `human_type` above, but
recorded against the driver oracle). -/
def humanTypeCalls (o : Oracle) : List Char → List DriverCall → List DriverCall
  | [], cs => cs
  | c :: rest, cs =>
    match drv o (.inputChar c) cs with
    | (.ok _, c1) => humanTypeCalls o rest c1
    | (.exn _ _, c1) =>
      match drv o (.typeChar c) c1 with
      | (.ok _, c2) => humanTypeCalls o rest c2
      | (.exn _ _, c2) => c2

/-- `random_scroll_jitter(page, max_delta)` as called from a handler:
issues the scroll for the effective delta, swallowing a failure, then
sleeps (`random_delay(100, 300)`, not observable). -/
def random_scroll_jitter_calls (o : Oracle) (delta choice : ℤ)
    (cs : List DriverCall) : List DriverCall :=
  (drv o (scroll_call_of_delta (random_scroll_jitter_delta delta choice)) cs).2

/-! ## Auxiliary lemmas for the stealth helpers -/

/-- When `input` succeeds on every position of the block, `humanTypeAux`
produces the canonical input/delay interleaving. -/
theorem humanTypeAux_all_ok (inputOk typeOk : ℕ → Bool) :
    ∀ (text : List Char) (i : ℕ),
      (∀ j, i ≤ j → j < i + text.length → inputOk j = true) →
      humanTypeAux inputOk typeOk i text = okTraceAux i text := by
  intro text
  induction text with
  | nil => intro i _; rfl
  | cons c rest ih =>
    intro i h
    have hi : inputOk i = true := h i le_rfl (by simp)
    simp only [humanTypeAux, hi, if_true, okTraceAux]
    rw [ih (i + 1) (fun j hj1 hj2 =>
      h j (by omega) (by simp only [List.length_cons]; omega))]

/-- When the first `input` failure is at position `i + k` and the fallback
`type` also fails there, `humanTypeAux` emits the canonical trace for the
first `k` characters and then exactly the two failed attempts for
character `k`, nothing more. -/
theorem humanTypeAux_break (inputOk typeOk : ℕ → Bool) :
    ∀ (text : List Char) (i k : ℕ),
      k < text.length →
      (∀ j, i ≤ j → j < i + k → inputOk j = true) →
      inputOk (i + k) = false → typeOk (i + k) = false →
      humanTypeAux inputOk typeOk i text =
        okTraceAux i (text.take k) ++
          [.inputCall (i + k) (text.getD k ' '), .typeCall (i + k) (text.getD k ' ')] := by
  intro text
  induction text with
  | nil => intro i k hk; simp at hk
  | cons c rest ih =>
    intro i k hk hpre hin hty
    cases k with
    | zero =>
      simp only [Nat.add_zero] at hin hty
      simp [humanTypeAux, hin, hty, okTraceAux]
    | succ k =>
      have hi : inputOk i = true := hpre i le_rfl (by omega)
      have heq : i + 1 + k = i + (k + 1) := by omega
      have ihh := ih (i + 1) k (by simp only [List.length_cons] at hk; omega)
        (fun j hj1 hj2 => hpre j (by omega) (by omega))
        (by rw [heq]; exact hin) (by rw [heq]; exact hty)
      simp only [humanTypeAux, hi, if_true, List.take_succ_cons, okTraceAux,
        List.getD_cons_succ, List.cons_append]
      rw [ihh, heq]

/-! ## Claim C4 -/

/-- C4: for every pair of endpoints, every choice of the random
control-point draws, and every `n ≥ 1`, `bezier_curve_points` returns
exactly `n + 1` points, the first being the start rounded to integers and
the last the end rounded to integers. -/
theorem bezier_curve_points_endpoints (start endP : ℚ × ℚ)
    (u1 v1 u2 v2 n1 n2 n3 n4 : ℚ) (n : ℕ) (hn : 1 ≤ n) :
    (bezier_curve_points start endP u1 v1 u2 v2 n1 n2 n3 n4 n).length = n + 1 ∧
    (bezier_curve_points start endP u1 v1 u2 v2 n1 n2 n3 n4 n).head? =
      some (pythonRound start.1, pythonRound start.2) ∧
    (bezier_curve_points start endP u1 v1 u2 v2 n1 n2 n3 n4 n).getLast? =
      some (pythonRound endP.1, pythonRound endP.2) := by
  have hne : (n : ℚ) ≠ 0 := Nat.cast_ne_zero.mpr (by omega)
  refine ⟨by simp only [bezier_curve_points, List.length_map, List.length_range],
    ?_, ?_⟩
  · simp only [bezier_curve_points, List.range_succ_eq_map, List.map_cons,
      List.head?_cons, Nat.cast_zero, zero_div]
    have h0 : ∀ p0 p1 p2 p3 : ℚ, _bezier_point 0 p0 p1 p2 p3 = p0 := by
      intro p0 p1 p2 p3; simp [_bezier_point]
    rw [h0, h0]
  · have hlen :
        (bezier_curve_points start endP u1 v1 u2 v2 n1 n2 n3 n4 n).length = n + 1 := by
      simp only [bezier_curve_points, List.length_map, List.length_range]
    rw [List.getLast?_eq_getElem?, hlen, Nat.add_sub_cancel]
    simp only [bezier_curve_points, List.getElem?_map, List.getElem?_range,
      Nat.lt_succ_self, Option.map_some']
    rw [div_self hne]
    have h1 : ∀ p0 p1 p2 p3 : ℚ, _bezier_point 1 p0 p1 p2 p3 = p3 := by
      intro p0 p1 p2 p3; simp [_bezier_point]
    rw [h1, h1]

/-- C4 witness: concrete instance with `n = 2`. -/
theorem bezier_curve_points_endpoints_witness :
    (bezier_curve_points (0, 0) (10, 5) 0 0 0 0 0 0 0 0 2).length = 2 + 1 ∧
    (bezier_curve_points (0, 0) (10, 5) 0 0 0 0 0 0 0 0 2).head? =
      some (pythonRound (0, (0 : ℚ)).1, pythonRound (0, (0 : ℚ)).2) ∧
    (bezier_curve_points (0, 0) (10, 5) 0 0 0 0 0 0 0 0 2).getLast? =
      some (pythonRound ((10 : ℚ), (5 : ℚ)).1, pythonRound ((10 : ℚ), (5 : ℚ)).2) :=
  bezier_curve_points_endpoints (0, 0) (10, 5) 0 0 0 0 0 0 0 0 2 (by norm_num)

/-! ## Claim C5 -/

/-- C5 counterexample: the claim "if inputting character k fails, no
characters after k are input and character k is not retried" is false on
the code: when `element.input` fails on character 0 but the fallback
`element.type` succeeds, character 0 is re-attempted via `type` and
character 1 is still input. -/
theorem human_type_fallback_counterexample :
    ¬ (∀ k, k < (['a', 'b'] : List Char).length →
        (fun i => decide (i ≠ 0)) k = false →
        (∀ j c, k < j →
          THEvent.inputCall j c ∉
            human_type (fun i => decide (i ≠ 0)) (fun _ => true) ['a', 'b']) ∧
        (∀ c, THEvent.typeCall k c ∉
            human_type (fun i => decide (i ≠ 0)) (fun _ => true) ['a', 'b'])) := by
  intro h
  have h0 := h 0 (by decide) (by decide)
  exact h0.1 1 'b' (by decide) (by decide)

/-- C5 (amended): if every `element.input` call succeeds, `human_type` on a
text of length L performs exactly L input calls in text order, each
followed by one per-character delay; when `element.input` first fails at
character k, one fallback `element.type` call is attempted for character
k, and if that also fails the loop stops — no delay for character k, no
further attempt at character k, and no characters after k are input. -/
theorem human_type_trace (inputOk typeOk : ℕ → Bool) (text : List Char) :
    ((∀ i, i < text.length → inputOk i = true) →
      human_type inputOk typeOk text = okTrace text) ∧
    (∀ k, k < text.length → (∀ i, i < k → inputOk i = true) →
      inputOk k = false → typeOk k = false →
      human_type inputOk typeOk text =
        okTrace (text.take k) ++
          [.inputCall k (text.getD k ' '), .typeCall k (text.getD k ' ')]) := by
  constructor
  · intro h
    exact humanTypeAux_all_ok inputOk typeOk text 0 (fun j _ hj => h j (by omega))
  · intro k hk hpre hin hty
    have := humanTypeAux_break inputOk typeOk text 0 k hk
      (fun j _ hj => hpre j (by omega)) (by simpa using hin) (by simpa using hty)
    simpa [human_type, okTrace] using this

/-- C5 witness: with text "abc", characters before position 1 succeeding,
and both attempts failing at position 1, the trace is the canonical prefix
for character 0 followed by the two failed attempts at character 1. -/
theorem human_type_trace_witness :
    human_type (fun i => decide (i ≠ 1)) (fun _ => false) ['a', 'b', 'c'] =
      okTrace (['a', 'b', 'c'].take 1) ++
        [.inputCall 1 (['a', 'b', 'c'].getD 1 ' '),
         .typeCall 1 (['a', 'b', 'c'].getD 1 ' ')] :=
  (human_type_trace (fun i => decide (i ≠ 1)) (fun _ => false) ['a', 'b', 'c']).2
    1 (by decide) (by decide) (by decide) (by decide)

/-! ## Claim C9 -/

/-- C9: for every `max_delta ≥ 1`, every sampled delta in
`[-max_delta, max_delta]` and either outcome of `random.choice([-30, 30])`,
the effective delta `random_scroll_jitter` applies is non-zero and the
issued scroll call has positive magnitude. -/
theorem random_scroll_jitter_nonzero (max_delta delta choice : ℤ)
    (hmax : 1 ≤ max_delta) (hlo : -max_delta ≤ delta) (hhi : delta ≤ max_delta)
    (hc : choice = 30 ∨ choice = -30) :
    random_scroll_jitter_delta delta choice ≠ 0 ∧
    0 < scrollCallMagnitude
        (scroll_call_of_delta (random_scroll_jitter_delta delta choice)) := by
  have hne : random_scroll_jitter_delta delta choice ≠ 0 := by
    unfold random_scroll_jitter_delta
    split_ifs with hd
    · rcases hc with hc | hc <;> omega
    · exact hd
  refine ⟨hne, ?_⟩
  unfold scroll_call_of_delta
  split_ifs with hpos
  · simpa [scrollCallMagnitude] using hpos
  · simp only [scrollCallMagnitude]
    exact abs_pos.mpr hne

/-- C9 witness: sampled delta 0 inside `[-100, 100]` with choice +30. -/
theorem random_scroll_jitter_nonzero_witness :
    random_scroll_jitter_delta 0 30 ≠ 0 ∧
    0 < scrollCallMagnitude (scroll_call_of_delta (random_scroll_jitter_delta 0 30)) :=
  random_scroll_jitter_nonzero 100 0 30 (by norm_num) (by norm_num) (by norm_num)
    (Or.inl rfl)

/-! ## Bridge state and handlers (`drission_bridge.py`) -/

/-- The module-level mutable globals of the bridge: `_page` (the browser
session handle, an opaque id when live) and `_config` (the stealth
configuration dict installed by `init`). -/
structure BState where
  page : Option ℕ
  config : JVal

/-- The random draws a single request may consume: the resolved Bézier
mouse path (`get_random_viewport_point`, `add_human_noise_to_coords` and
`bezier_curve_points` composed over the uniform draws), and the scroll
jitter draws (`random.randint` and `random.choice`). -/
structure RandDraws where
  path : List (ℤ × ℤ)
  jitterDelta : ℤ
  jitterChoice : ℤ

/-- Result of running one handler: the (possibly updated) globals, the
handler's return value or raised exception message, and the driver calls
it made. -/
structure HOut where
  state : BState
  res : Except String JVal
  calls : List DriverCall

/-- `handle_init`: installs `params.get("stealth", {})` as the new config
(before launching, so a failed launch still replaces it), then launches
the browser.  The `ChromiumOptions` argument assembly is local object
construction with no driver interaction and is not traced; the
`DrissionPage` import is assumed available. -/
def handle_init (o : Oracle) (s : BState) (params : JVal) : HOut :=
  let cfg := jGet params "stealth" (.obj [])
  let width := jGet cfg "windowWidth" (.num 1920)
  let height := jGet cfg "windowHeight" (.num 1080)
  match drv o .launch [] with
  | (.exn _ m, c1) => ⟨⟨s.page, cfg⟩, .error m, c1⟩
  | (.ok _, c1) =>
    ⟨⟨some 0, cfg⟩,
     .ok (.obj [("status", .str "initialized"),
                ("windowSize", .obj [("width", width), ("height", height)])]),
     c1⟩

/-- `handle_navigate`: requires a truthy `url`, then `_page.get(url)`, a
humanized delay, and reads back `_page.url` and `_page.title`. -/
def handle_navigate (o : Oracle) (s : BState) (params : JVal) : HOut :=
  let url := jGet params "url" (.str "")
  let rc : Except String JVal × List DriverCall :=
    if pyTruthy url then
      match drv o (.get url) [] with
      | (.exn _ m, c1) => (.error m, c1)
      | (.ok _, c1) =>
        match drv o .readUrl c1 with
        | (.exn _ m, c2) => (.error m, c2)
        | (.ok u, c2) =>
          match drv o .readTitle c2 with
          | (.exn _ m, c3) => (.error m, c3)
          | (.ok t, c3) => (.ok (.obj [("url", u), ("title", t)]), c3)
    else (.error "url is required", [])
  ⟨s, rc.1, rc.2⟩

/-- `rect.midpoint[0]` / `[1]` with `int(.)` applied; `none` stands for
any exception along the way (swallowed by the caller). -/
def extractMidpoint (rect : JVal) : Option (ℤ × ℤ) :=
  match jLookup rect "midpoint" with
  | some (.arr (a :: b :: _)) =>
    match pyInt a, pyInt b with
    | .ok x, .ok y => some (x, y)
    | _, _ => none
  | _ => none

/-- The cosmetic pre-click block of `handle_click_element`: if natural
mouse movement is enabled, read `element.rect`, and when it is truthy and
a midpoint can be extracted, animate the Bézier move; every exception in
the block is swallowed (`except Exception: pass`). -/
def clickElemCosmetic (o : Oracle) (r : RandDraws) (cfg : JVal)
    (cs : List DriverCall) : List DriverCall :=
  if pyTruthy (jGet cfg "naturalMouseMovement" (.bool true)) then
    match drv o .rect cs with
    | (.exn _ _, c1) => c1
    | (.ok rect, c1) =>
      if pyTruthy rect then
        match extractMidpoint rect with
        | none => c1
        | some _ => bezier_mouse_move o r.path c1
      else c1
  else cs

/-- `handle_click_element`: requires a truthy `selector`; `_page.ele`
returning `None` raises "Element not found"; then the cosmetic move,
`element.click()`, a delay, and `element.text` (read twice: once for the
truthiness test, once for the description). -/
def handle_click_element (o : Oracle) (r : RandDraws) (s : BState) (params : JVal) : HOut :=
  let selector := jGet params "selector" (.str "")
  let rc : Except String JVal × List DriverCall :=
    if pyTruthy selector then
      match drv o (.ele selector) [] with
      | (.exn _ m, c1) => (.error m, c1)
      | (.ok elemv, c1) =>
        match elemv with
        | .null => (.error ("Element not found: " ++ pyStr selector), c1)
        | _ =>
          let c2 := clickElemCosmetic o r s.config c1
          match drv o .clickElem c2 with
          | (.exn _ m, c3) => (.error m, c3)
          | (.ok _, c3) =>
            match drv o .readText c3 with
            | (.exn _ m, c4) => (.error m, c4)
            | (.ok t1, c4) =>
              if pyTruthy t1 then
                match drv o .readText c4 with
                | (.exn _ m, c5) => (.error m, c5)
                | (.ok t2, c5) =>
                  (.ok (.obj [("success", .bool true),
                              ("elementDescription", .str ((pyStr t2).take 200))]), c5)
              else
                (.ok (.obj [("success", .bool true),
                            ("elementDescription", .str "")]), c4)
    else (.error "selector is required", [])
  ⟨s, rc.1, rc.2⟩

/-- `handle_click_xy`: `x` and `y` default to 0 when absent (no
validation), optional Bézier animation, then `_page.actions.click(x, y)`
with the raw coordinates. -/
def handle_click_xy (o : Oracle) (r : RandDraws) (s : BState) (params : JVal) : HOut :=
  let rc : Except String JVal × List DriverCall :=
    match pyInt (jGet params "x" (.num 0)) with
    | .error m => (.error m, [])
    | .ok x =>
      match pyInt (jGet params "y" (.num 0)) with
      | .error m => (.error m, [])
      | .ok y =>
        let c1 := if pyTruthy (jGet s.config "naturalMouseMovement" (.bool true)) then
            bezier_mouse_move o r.path []
          else []
        match drv o (.actionsClick x y) c1 with
        | (.exn _ m, c2) => (.error m, c2)
        | (.ok _, c2) =>
          (.ok (.obj [("success", .bool true), ("x", .num x), ("y", .num y)]), c2)
  ⟨s, rc.1, rc.2⟩

/-- `handle_type_text`: requires a truthy `selector`; `_page.ele`
returning `None` raises; optional `element.clear()` with its failure
swallowed; then per-character human typing (with `type` fallback and
break) or a single bulk `element.input(text)`. -/
def handle_type_text (o : Oracle) (s : BState) (params : JVal) : HOut :=
  let selector := jGet params "selector" (.str "")
  let text := jGet params "text" (.str "")
  let clearFlag := jGet params "clear" (.bool true)
  let humanTyping := jGet params "humanTyping" (.bool true)
  let rc : Except String JVal × List DriverCall :=
    if pyTruthy selector then
      match drv o (.ele selector) [] with
      | (.exn _ m, c1) => (.error m, c1)
      | (.ok elemv, c1) =>
        match elemv with
        | .null => (.error ("Element not found: " ++ pyStr selector), c1)
        | _ =>
          let c2 := if pyTruthy clearFlag then (drv o .clear c1).2 else c1
          if pyTruthy humanTyping then
            match pyIterChars text with
            | .error m => (.error m, c2)
            | .ok chars =>
              (.ok (.obj [("success", .bool true), ("fieldDescription", selector)]),
               humanTypeCalls o chars c2)
          else
            match drv o (.inputText text) c2 with
            | (.exn _ m, c3) => (.error m, c3)
            | (.ok _, c3) =>
              (.ok (.obj [("success", .bool true), ("fieldDescription", selector)]), c3)
    else (.error "selector is required", [])
  ⟨s, rc.1, rc.2⟩

/-- Base64 alphabet (RFC 4648), as used by Python `base64.b64encode`. -/
def b64Alphabet : List Char :=
  "ABCDEFGHIJKLMNOPQRSTUVWXYZabcdefghijklmnopqrstuvwxyz0123456789+/".toList

/-- One base64 output character. -/
def b64Char (n : ℕ) : Char := b64Alphabet.getD n 'A'

/-- `base64.b64encode(..).decode("ascii")` on a byte list. -/
def b64encode : List ℕ → String
  | [] => ""
  | [a] =>
    String.mk [b64Char (a / 4 % 64), b64Char (a % 4 * 16), '=', '=']
  | [a, b] =>
    String.mk [b64Char (a / 4 % 64), b64Char (a % 4 * 16 + b / 16 % 16),
      b64Char (b % 16 * 4), '=']
  | a :: b :: c :: rest =>
    String.mk [b64Char (a / 4 % 64), b64Char (a % 4 * 16 + b / 16 % 16),
      b64Char (b % 16 * 4 + c / 64 % 4), b64Char (c % 64)] ++ b64encode rest

/-- Shared tail of `handle_screenshot`: base64-encode the returned bytes
and build the result (non-bytes values make `b64encode` raise). -/
def finishScreenshot (v fmt cfg : JVal) (cs : List DriverCall) :
    Except String JVal × List DriverCall :=
  match v with
  | .bytes bs =>
    (.ok (.obj [("base64", .str (b64encode bs)), ("format", fmt),
                ("width", jGet cfg "windowWidth" (.num 1920)),
                ("height", jGet cfg "windowHeight" (.num 1080))]), cs)
  | _ => (.error "argument should be a bytes-like object", cs)

/-- `handle_screenshot`: tries the keyword form of `get_screenshot`,
falling back to the plain form only on `TypeError`; other exceptions
propagate. -/
def handle_screenshot (o : Oracle) (s : BState) (params : JVal) : HOut :=
  let fmt := jGet params "format" (.str "png")
  let fullPage := jGet params "fullPage" (.bool false)
  let rc : Except String JVal × List DriverCall :=
    match drv o (.screenshotCall fmt fullPage) [] with
    | (.ok v, c1) => finishScreenshot v fmt s.config c1
    | (.exn true _, c1) =>
      match drv o .screenshotFallback c1 with
      | (.ok v, c2) => finishScreenshot v fmt s.config c2
      | (.exn _ m, c2) => (.error m, c2)
    | (.exn false m, c1) => (.error m, c1)
  ⟨s, rc.1, rc.2⟩

/-- The DOM-scanning JavaScript source of `handle_get_dom_map`.  The
script's text is incidental (the spec excludes it from the core), so it is
kept as an abbreviated constant. -/
def dom_map_js : String := "(() => ... interactive element scan ...)()"

/-- `handle_get_dom_map`: runs the DOM scan script, then reads `_page.url`
and `_page.title`; a falsy script result is replaced by `[]`. -/
def handle_get_dom_map (o : Oracle) (s : BState) (params : JVal) : HOut :=
  let rc : Except String JVal × List DriverCall :=
    match drv o (.runJs (.str dom_map_js)) [] with
    | (.exn _ m, c1) => (.error m, c1)
    | (.ok elements, c1) =>
      match drv o .readUrl c1 with
      | (.exn _ m, c2) => (.error m, c2)
      | (.ok u, c2) =>
        match drv o .readTitle c2 with
        | (.exn _ m, c3) => (.error m, c3)
        | (.ok t, c3) =>
          (.ok (.obj [("elements", if pyTruthy elements then elements else .arr []),
                      ("url", u), ("title", t)]), c3)
  ⟨s, rc.1, rc.2⟩

/-- Tail of `handle_scroll` after the (possible) main scroll call: the
jitter (when natural movement is enabled) and the success result. -/
def afterScroll (o : Oracle) (r : RandDraws) (cfg direction : JVal)
    (cs : List DriverCall) : Except String JVal × List DriverCall :=
  let c2 := if pyTruthy (jGet cfg "naturalMouseMovement" (.bool true)) then
      random_scroll_jitter_calls o r.jitterDelta r.jitterChoice cs
    else cs
  (.ok (.obj [("success", .bool true), ("direction", direction)]), c2)

/-- `handle_scroll`: `int(params.get("amount", 300))` may raise; a
direction outside down/up/top/bottom issues no scroll but still succeeds;
the main scroll call's exceptions propagate while the jitter's are
swallowed. -/
def handle_scroll (o : Oracle) (r : RandDraws) (s : BState) (params : JVal) : HOut :=
  let direction := jGet params "direction" (.str "down")
  let rc : Except String JVal × List DriverCall :=
    match pyInt (jGet params "amount" (.num 300)) with
    | .error m => (.error m, [])
    | .ok amount =>
      let step : Option DriverCall :=
        match direction with
        | .str "down" => some (.scrollDown amount)
        | .str "up" => some (.scrollUp amount)
        | .str "top" => some .scrollTop
        | .str "bottom" => some .scrollBottom
        | _ => none
      match step with
      | none => afterScroll o r s.config direction []
      | some call =>
        match drv o call [] with
        | (.exn _ m, c1) => (.error m, c1)
        | (.ok _, c1) => afterScroll o r s.config direction c1
  ⟨s, rc.1, rc.2⟩

/-- `handle_wait`: with a truthy `selector`, polls
`_page.wait.ele_displayed` and maps any exception to a
`success:false, timedOut:true` result; otherwise sleeps `ms`. -/
def handle_wait (o : Oracle) (s : BState) (params : JVal) : HOut :=
  let rc : Except String JVal × List DriverCall :=
    match pyInt (jGet params "ms" (.num 1000)) with
    | .error m => (.error m, [])
    | .ok ms =>
      let selector := jGet params "selector" .null
      if pyTruthy selector then
        match drv o (.waitEleDisplayed selector ms) [] with
        | (.ok _, c1) =>
          (.ok (.obj [("success", .bool true), ("waited_for", selector)]), c1)
        | (.exn _ _, c1) =>
          (.ok (.obj [("success", .bool false), ("waited_for", selector),
                      ("timedOut", .bool true)]), c1)
      else
        (.ok (.obj [("success", .bool true), ("waited_ms", .num ms)]), [])
  ⟨s, rc.1, rc.2⟩

/-- `handle_execute_js`: requires a truthy `code`, runs it, returns the
value. -/
def handle_execute_js (o : Oracle) (s : BState) (params : JVal) : HOut :=
  let code := jGet params "code" (.str "")
  let rc : Except String JVal × List DriverCall :=
    if pyTruthy code then
      match drv o (.runJs code) [] with
      | (.exn _ m, c1) => (.error m, c1)
      | (.ok v, c1) => (.ok (.obj [("result", v)]), c1)
    else (.error "code is required", [])
  ⟨s, rc.1, rc.2⟩

/-- `handle_close`: with a live handle, `_page.quit()` (its failure
swallowed) and the handle is cleared; with no handle, nothing happens.
Always returns `{"status": "closed"}`. -/
def handle_close (o : Oracle) (s : BState) (params : JVal) : HOut :=
  match s.page with
  | some _ =>
    ⟨⟨none, s.config⟩, .ok (.obj [("status", .str "closed")]), (drv o .quit []).2⟩
  | none => ⟨s, .ok (.obj [("status", .str "closed")]), []⟩

/-- `handle_get_page_info`: reads url/title when a handle is live, else
reports empty strings and `ready: false` without any driver call. -/
def handle_get_page_info (o : Oracle) (s : BState) (params : JVal) : HOut :=
  let rc : Except String JVal × List DriverCall :=
    match s.page with
    | some _ =>
      match drv o .readUrl [] with
      | (.exn _ m, c1) => (.error m, c1)
      | (.ok u, c1) =>
        match drv o .readTitle c1 with
        | (.exn _ m, c2) => (.error m, c2)
        | (.ok t, c2) =>
          (.ok (.obj [("url", u), ("title", t), ("ready", .bool true)]), c2)
    | none =>
      (.ok (.obj [("url", .str ""), ("title", .str ""), ("ready", .bool false)]), [])
  ⟨s, rc.1, rc.2⟩

/-- The keys of the `METHODS` dispatch table. -/
def METHODS : List String :=
  ["init", "navigate", "click_element", "click_xy", "type_text", "screenshot",
   "get_dom_map", "scroll", "wait", "execute_js", "close", "get_page_info"]

/-- `METHODS.get(method)`: the dispatch table lookup, running the matched
handler. -/
def runHandler (m : String) (o : Oracle) (r : RandDraws) (s : BState) (params : JVal) :
    Option HOut :=
  if m = "init" then some (handle_init o s params)
  else if m = "navigate" then some (handle_navigate o s params)
  else if m = "click_element" then some (handle_click_element o r s params)
  else if m = "click_xy" then some (handle_click_xy o r s params)
  else if m = "type_text" then some (handle_type_text o s params)
  else if m = "screenshot" then some (handle_screenshot o s params)
  else if m = "get_dom_map" then some (handle_get_dom_map o s params)
  else if m = "scroll" then some (handle_scroll o r s params)
  else if m = "wait" then some (handle_wait o s params)
  else if m = "execute_js" then some (handle_execute_js o s params)
  else if m = "close" then some (handle_close o s params)
  else if m = "get_page_info" then some (handle_get_page_info o s params)
  else none

/-! ## Transport loop (`main`) -/

/-- One input line, after `line.strip()`: blank (skipped), invalid JSON
(`json.loads` raises, with the decoder's message), or a parsed request
whose `id`, when present, is an integer and whose `method`/`params`
default to `""`/`{}`. -/
inductive Line where
  | blank
  | malformed (msg : String)
  | request (id : Option ℤ) (method : String) (params : JVal)

/-- A JSON-RPC error object `{code, message, data?}`. -/
structure ErrObj where
  code : ℤ
  message : String
  data : Option JVal

/-- A JSON-RPC response: an echoed id plus exactly one of result or
error. -/
structure Resp where
  id : ℤ
  out : Except ErrObj JVal

/-- Output of processing one line: the updated globals, the responses
written (zero for a blank line, one otherwise), and the driver calls
made. -/
structure StepOut where
  state : BState
  resps : List Resp
  calls : List DriverCall

/-- The `{"traceback": ...}` payload attached to -32000 errors; the
traceback text itself is runtime-dependent and modelled as a constant. -/
def tbData : JVal := .obj [("traceback", .str "Traceback (most recent call last)")]

/-- The not-initialized guard message of `main`. -/
def notInitMsg : String := "Browser not initialized. Call \x27init\x27 first."

/-- One iteration of `main`'s loop on a non-EOF line: skip blanks; answer
invalid JSON with a -32000 parse error carrying id 0; look the method up
(unknown → -32601); enforce the not-initialized guard for every method
except `init` and `close`; otherwise run the handler, turning an
exception into a -32000 error with traceback data. -/
def dispatchLine (o : Oracle) (r : RandDraws) (s : BState) (l : Line) : StepOut :=
  match l with
  | .blank => ⟨s, [], []⟩
  | .malformed msg => ⟨s, [⟨0, .error ⟨-32000, msg, some tbData⟩⟩], []⟩
  | .request id? m params =>
    let msgId := id?.getD 0
    match runHandler m o r s params with
    | none => ⟨s, [⟨msgId, .error ⟨-32601, "Method not found: " ++ m, none⟩⟩], []⟩
    | some hOut =>
      if m ≠ "init" ∧ s.page = none ∧ m ≠ "close" then
        ⟨s, [⟨msgId, .error ⟨-32000, notInitMsg, none⟩⟩], []⟩
      else
        match hOut.res with
        | .ok v => ⟨hOut.state, [⟨msgId, .ok v⟩], hOut.calls⟩
        | .error e =>
          ⟨hOut.state, [⟨msgId, .error ⟨-32000, e, some tbData⟩⟩], hOut.calls⟩

/-- The whole stdin loop over a list of lines, with per-line oracles and
random draws (indexed by line position); returns all responses in order
and the final globals. -/
def processLines (O : ℕ → Oracle) (R : ℕ → RandDraws) :
    ℕ → BState → List Line → List Resp × BState
  | _, s, [] => ([], s)
  | k, s, l :: rest =>
    let out := dispatchLine (O k) (R k) s l
    let next := processLines O R (k + 1) out.state rest
    (out.resps ++ next.1, next.2)

/-- An oracle whose driver calls all succeed with `None`. -/
def oracleAllOk : Oracle := fun _ => .ok .null

/-- Fixed random draws: empty mouse path, jitter delta 0 with choice 30. -/
def rand0 : RandDraws := ⟨[], 0, 30⟩

/-! ## Dispatcher lemmas -/

/-- The dispatch table lookup fails exactly on unknown method names. -/
theorem runHandler_none_iff (m : String) (o : Oracle) (r : RandDraws) (s : BState)
    (p : JVal) : runHandler m o r s p = none ↔ m ∉ METHODS := by
  constructor
  · intro h hmem
    fin_cases hmem <;> simp only [runHandler, String.reduceEq, reduceIte] at h <;>
      exact Option.noConfusion h
  · intro h
    have hs : ¬m = "init" ∧ ¬m = "navigate" ∧ ¬m = "click_element" ∧
        ¬m = "click_xy" ∧ ¬m = "type_text" ∧ ¬m = "screenshot" ∧
        ¬m = "get_dom_map" ∧ ¬m = "scroll" ∧ ¬m = "wait" ∧
        ¬m = "execute_js" ∧ ¬m = "close" ∧ ¬m = "get_page_info" := by
      simpa [METHODS] using h
    obtain ⟨h1, h2, h3, h4, h5, h6, h7, h8, h9, h10, h11, h12⟩ := hs
    simp only [runHandler, if_neg h1, if_neg h2, if_neg h3, if_neg h4, if_neg h5,
      if_neg h6, if_neg h7, if_neg h8, if_neg h9, if_neg h10, if_neg h11, if_neg h12]

/-- Handlers other than `handle_init` and `handle_close` never write the
globals. -/
theorem runHandler_state (m : String) (o : Oracle) (r : RandDraws) (s : BState)
    (p : JVal) (h : HOut) (heq : runHandler m o r s p = some h)
    (h1 : m ≠ "init") (h2 : m ≠ "close") : h.state = s := by
  by_cases hM : m ∈ METHODS
  · fin_cases hM
    · exact absurd rfl h1
    · simp only [runHandler, String.reduceEq, reduceIte, Option.some.injEq] at heq; subst heq; rfl
    · simp only [runHandler, String.reduceEq, reduceIte, Option.some.injEq] at heq; subst heq; rfl
    · simp only [runHandler, String.reduceEq, reduceIte, Option.some.injEq] at heq; subst heq; rfl
    · simp only [runHandler, String.reduceEq, reduceIte, Option.some.injEq] at heq; subst heq; rfl
    · simp only [runHandler, String.reduceEq, reduceIte, Option.some.injEq] at heq; subst heq; rfl
    · simp only [runHandler, String.reduceEq, reduceIte, Option.some.injEq] at heq; subst heq; rfl
    · simp only [runHandler, String.reduceEq, reduceIte, Option.some.injEq] at heq; subst heq; rfl
    · simp only [runHandler, String.reduceEq, reduceIte, Option.some.injEq] at heq; subst heq; rfl
    · simp only [runHandler, String.reduceEq, reduceIte, Option.some.injEq] at heq; subst heq; rfl
    · exact absurd rfl h2
    · simp only [runHandler, String.reduceEq, reduceIte, Option.some.injEq] at heq; subst heq; rfl
  · rw [(runHandler_none_iff m o r s p).mpr hM] at heq
    exact Option.noConfusion heq

/-- Successful handler run: the dispatcher echoes the id and wraps the
result. -/
theorem dispatchLine_ok (o : Oracle) (r : RandDraws) (s : BState) (id? : Option ℤ)
    (m : String) (params : JVal) (hOut : HOut) (v : JVal)
    (hrun : runHandler m o r s params = some hOut)
    (hg : ¬(m ≠ "init" ∧ s.page = none ∧ m ≠ "close"))
    (hres : hOut.res = .ok v) :
    dispatchLine o r s (.request id? m params) =
      ⟨hOut.state, [⟨id?.getD 0, .ok v⟩], hOut.calls⟩ := by
  simp [dispatchLine, hrun, hg, hres]

/-- Raising handler run: the dispatcher converts the exception into a
-32000 error with traceback data. -/
theorem dispatchLine_error (o : Oracle) (r : RandDraws) (s : BState) (id? : Option ℤ)
    (m : String) (params : JVal) (hOut : HOut) (e : String)
    (hrun : runHandler m o r s params = some hOut)
    (hg : ¬(m ≠ "init" ∧ s.page = none ∧ m ≠ "close"))
    (hres : hOut.res = .error e) :
    dispatchLine o r s (.request id? m params) =
      ⟨hOut.state, [⟨id?.getD 0, .error ⟨-32000, e, some tbData⟩⟩], hOut.calls⟩ := by
  simp [dispatchLine, hrun, hg, hres]

/-- Whatever the handler outcome, the dispatcher forwards exactly the
handler's driver calls. -/
theorem dispatchLine_calls_eq (o : Oracle) (r : RandDraws) (s : BState)
    (id? : Option ℤ) (m : String) (params : JVal) (hOut : HOut)
    (hrun : runHandler m o r s params = some hOut)
    (hg : ¬(m ≠ "init" ∧ s.page = none ∧ m ≠ "close")) :
    (dispatchLine o r s (.request id? m params)).calls = hOut.calls := by
  rcases hres : hOut.res with e | v
  · rw [dispatchLine_error o r s id? m params hOut e hrun hg hres]
  · rw [dispatchLine_ok o r s id? m params hOut v hrun hg hres]

/-- Processing a concatenation of line lists splits into the two runs,
threading the state and the per-line index. -/
theorem processLines_append (O : ℕ → Oracle) (R : ℕ → RandDraws) :
    ∀ (xs ys : List Line) (k : ℕ) (s : BState),
      processLines O R k s (xs ++ ys) =
        ((processLines O R k s xs).1 ++
          (processLines O R (k + xs.length) (processLines O R k s xs).2 ys).1,
         (processLines O R (k + xs.length) (processLines O R k s xs).2 ys).2) := by
  intro xs
  induction xs with
  | nil => intro ys k s; simp [processLines]
  | cons l rest ih =>
    intro ys k s
    simp only [List.cons_append, processLines, List.length_cons, List.append_eq]
    rw [ih ys (k + 1), show k + (rest.length + 1) = k + 1 + rest.length from by omega]
    simp [List.append_assoc]

/-! ## Claim C1 -/

/-- C1 divergence: a `get_page_info` request sent before any `init` is
rejected by `main`'s not-initialized guard (the guard exempts only `init`
and `close`), even though `handle_get_page_info` itself would return the
`{"url": "", "title": "", "ready": false}` success the spec expects — the
handler's uninitialized branch is unreachable. -/
theorem get_page_info_uninit_behavior :
    dispatchLine oracleAllOk rand0 ⟨none, .obj []⟩
        (.request (some 1) "get_page_info" (.obj [])) =
      ⟨⟨none, .obj []⟩, [⟨1, .error ⟨-32000, notInitMsg, none⟩⟩], []⟩ ∧
    handle_get_page_info oracleAllOk ⟨none, .obj []⟩ (.obj []) =
      ⟨⟨none, .obj []⟩,
       .ok (.obj [("url", .str ""), ("title", .str ""), ("ready", .bool false)]),
       []⟩ :=
  ⟨rfl, rfl⟩

/-! ## Claim C3 -/

/-- C3: every Ready-only method invoked while the session is Uninitialized
gets the not-initialized error, makes no driver call, and leaves the
globals unchanged. -/
theorem uninit_guard (o : Oracle) (r : RandDraws) (s : BState) (id? : Option ℤ)
    (m : String) (params : JVal)
    (hm : m ∈ ["navigate", "click_element", "click_xy", "type_text", "screenshot",
      "get_dom_map", "scroll", "wait", "execute_js"])
    (hpage : s.page = none) :
    dispatchLine o r s (.request id? m params) =
      ⟨s, [⟨id?.getD 0, .error ⟨-32000, notInitMsg, none⟩⟩], []⟩ := by
  obtain ⟨page, cfg⟩ := s
  cases page with
  | some h => exact absurd hpage (by simp)
  | none => fin_cases hm <;> rfl

/-- C3 witness: `click_xy` while Uninitialized. -/
theorem uninit_guard_witness :
    dispatchLine oracleAllOk rand0 ⟨none, .obj []⟩
        (.request (some 5) "click_xy" (.obj [])) =
      ⟨⟨none, .obj []⟩, [⟨5, .error ⟨-32000, notInitMsg, none⟩⟩], []⟩ :=
  uninit_guard oracleAllOk rand0 ⟨none, .obj []⟩ (some 5) "click_xy" (.obj [])
    (by decide) rfl

/-! ## Claim C6 -/

/-- C6: `close` is valid in any state and idempotent: both of two
consecutive closes return `{"status": "closed"}`, after each one the
handle is gone while the configuration is kept, and the second close (no
live handle) performs no driver call. -/
theorem close_idempotent (o1 o2 : Oracle) (r1 r2 : RandDraws) (s : BState)
    (id1 id2 : Option ℤ) (p1 p2 : JVal) :
    (dispatchLine o1 r1 s (.request id1 "close" p1)).resps =
      [⟨id1.getD 0, .ok (.obj [("status", .str "closed")])⟩] ∧
    (dispatchLine o1 r1 s (.request id1 "close" p1)).state.page = none ∧
    (dispatchLine o1 r1 s (.request id1 "close" p1)).state.config = s.config ∧
    (dispatchLine o2 r2 (dispatchLine o1 r1 s (.request id1 "close" p1)).state
        (.request id2 "close" p2)).resps =
      [⟨id2.getD 0, .ok (.obj [("status", .str "closed")])⟩] ∧
    (dispatchLine o2 r2 (dispatchLine o1 r1 s (.request id1 "close" p1)).state
        (.request id2 "close" p2)).state.page = none ∧
    (dispatchLine o2 r2 (dispatchLine o1 r1 s (.request id1 "close" p1)).state
        (.request id2 "close" p2)).calls = [] := by
  obtain ⟨page, cfg⟩ := s
  cases page <;> exact ⟨rfl, rfl, rfl, rfl, rfl, rfl⟩

/-! ## Claim C7 -/

/-- C7: a non-blank line that is not valid JSON yields exactly one error
response carrying id 0, does not change the globals, and the loop
continues processing the following lines exactly as it would have. -/
theorem malformed_line_isolated (O : ℕ → Oracle) (R : ℕ → RandDraws) (k : ℕ)
    (s : BState) (pre post : List Line) (msg : String) :
    processLines O R k s (pre ++ .malformed msg :: post) =
      ((processLines O R k s pre).1 ++
        ⟨0, .error ⟨-32000, msg, some tbData⟩⟩ ::
          (processLines O R (k + pre.length + 1)
            (processLines O R k s pre).2 post).1,
       (processLines O R (k + pre.length + 1)
          (processLines O R k s pre).2 post).2) := by
  rw [processLines_append O R pre (.malformed msg :: post) k s]
  simp [processLines, dispatchLine]

/-! ## Claim C8 -/

/-- The error code of a response, when it is an error. -/
def respErrCode (resp : Resp) : Option ℤ :=
  match resp.out with
  | .error e => some e.code
  | .ok _ => none

/-- C8: a well-formed request for an unknown method gets error code
-32601 with the method name inside the message, and -32601 is produced
for no other line. -/
theorem method_not_found_code :
    (∀ (o : Oracle) (r : RandDraws) (s : BState) (id? : Option ℤ) (m : String)
        (params : JVal), m ∉ METHODS →
      dispatchLine o r s (.request id? m params) =
        ⟨s, [⟨id?.getD 0, .error ⟨-32601, "Method not found: " ++ m, none⟩⟩], []⟩ ∧
      ∃ a b, "Method not found: " ++ m = a ++ m ++ b) ∧
    (∀ (o : Oracle) (r : RandDraws) (s : BState) (l : Line) (resp : Resp),
      resp ∈ (dispatchLine o r s l).resps → respErrCode resp = some (-32601) →
      ∃ id? m params, l = .request id? m params ∧ m ∉ METHODS) := by
  constructor
  · intro o r s id? m params hM
    have hrun : runHandler m o r s params = none :=
      (runHandler_none_iff m o r s params).mpr hM
    refine ⟨by simp [dispatchLine, hrun], "Method not found: ", "", ?_⟩
    rw [String.append_empty]
  · intro o r s l resp hmem hcode
    cases l with
    | blank => simp [dispatchLine] at hmem
    | malformed msg =>
      simp only [dispatchLine, List.mem_singleton] at hmem
      subst hmem
      simp [respErrCode] at hcode
    | request id? m params =>
      refine ⟨id?, m, params, rfl, ?_⟩
      by_contra hM
      rcases heq : runHandler m o r s params with _ | hOut
      · exact (runHandler_none_iff m o r s params).mp heq hM
      · by_cases hg : m ≠ "init" ∧ s.page = none ∧ m ≠ "close"
        · simp only [dispatchLine, heq, if_pos hg, List.mem_singleton] at hmem
          subst hmem
          simp [respErrCode] at hcode
        · rcases hres : hOut.res with e | v
          · rw [dispatchLine_error o r s id? m params hOut e heq hg hres] at hmem
            simp only [List.mem_singleton] at hmem
            subst hmem
            simp [respErrCode] at hcode
          · rw [dispatchLine_ok o r s id? m params hOut v heq hg hres] at hmem
            simp only [List.mem_singleton] at hmem
            subst hmem
            simp [respErrCode] at hcode

/-- C8 witness: the unknown method "frobnicate". -/
theorem method_not_found_code_witness :
    dispatchLine oracleAllOk rand0 ⟨none, .obj []⟩
        (.request (some 3) "frobnicate" (.obj [])) =
      ⟨⟨none, .obj []⟩,
       [⟨3, .error ⟨-32601, "Method not found: " ++ "frobnicate", none⟩⟩], []⟩ ∧
    ∃ a b, "Method not found: " ++ "frobnicate" = a ++ "frobnicate" ++ b :=
  method_not_found_code.1 oracleAllOk rand0 ⟨none, .obj []⟩ (some 3) "frobnicate"
    (.obj []) (by decide)

/-! ## Claim C10 -/

/-- C10: every method other than `init` and `close` leaves both globals
unchanged whether it succeeds or fails, and `close` changes only the
handle, never the configuration. -/
theorem dispatch_frame :
    (∀ (o : Oracle) (r : RandDraws) (s : BState) (id? : Option ℤ) (m : String)
        (params : JVal), m ≠ "init" → m ≠ "close" →
      (dispatchLine o r s (.request id? m params)).state = s) ∧
    (∀ (o : Oracle) (r : RandDraws) (s : BState) (id? : Option ℤ) (params : JVal),
      (dispatchLine o r s (.request id? "close" params)).state.config = s.config) := by
  constructor
  · intro o r s id? m params h1 h2
    cases heq : runHandler m o r s params with
    | none => simp [dispatchLine, heq]
    | some hOut =>
      have hs := runHandler_state m o r s params hOut heq h1 h2
      by_cases hg : m ≠ "init" ∧ s.page = none ∧ m ≠ "close"
      · simp [dispatchLine, heq, hg]
      · rcases hres : hOut.res with e | v <;>
          simp [dispatchLine, heq, hg, hres, hs]
  · intro o r s id? params
    obtain ⟨page, cfg⟩ := s
    cases page <;> rfl

/-- C10 witness: a `navigate` request (against an arbitrary driver
outcome) leaves the globals unchanged. -/
theorem dispatch_frame_witness :
    (dispatchLine oracleAllOk rand0 ⟨none, .obj []⟩
        (.request (some 1) "navigate" (.obj []))).state = ⟨none, .obj []⟩ :=
  dispatch_frame.1 oracleAllOk rand0 ⟨none, .obj []⟩ (some 1) "navigate" (.obj [])
    (by decide) (by decide)

/-! ## Claim C2 -/

/-- C2 counterexample: a Ready-state `click_xy` request with both `x` and
`y` missing does not produce an invalid-argument error; it clicks at the
default coordinates (0, 0) and succeeds. -/
theorem click_xy_missing_xy_counterexample :
    (dispatchLine oracleAllOk rand0 ⟨some 0, .obj []⟩
        (.request (some 7) "click_xy" (.obj []))).calls = [.actionsClick 0 0] ∧
    (dispatchLine oracleAllOk rand0 ⟨some 0, .obj []⟩
        (.request (some 7) "click_xy" (.obj []))).resps =
      [⟨7, .ok (.obj [("success", .bool true), ("x", .num 0), ("y", .num 0)])⟩] ∧
    ¬ ∃ e, (dispatchLine oracleAllOk rand0 ⟨some 0, .obj []⟩
        (.request (some 7) "click_xy" (.obj []))).resps = [⟨7, .error e⟩] := by
  refine ⟨rfl, rfl, ?_⟩
  rintro ⟨e, he⟩
  rw [show (dispatchLine oracleAllOk rand0 ⟨some 0, .obj []⟩
        (.request (some 7) "click_xy" (.obj []))).resps =
      [⟨7, .ok (.obj [("success", .bool true), ("x", .num 0), ("y", .num 0)])⟩]
    from rfl] at he
  simp at he

/-- C2 (amended): the handlers with required parameters (`navigate`/`url`,
`click_element`/`selector`, `type_text`/`selector`, `execute_js`/`code`)
validate them before any driver call and fail with a -32000 error naming
the field when the parameter is missing; `click_xy` performs no such
validation — with `x` and `y` absent it proceeds and clicks at the
default coordinates (0, 0). -/
theorem required_param_validation :
    (∀ (o : Oracle) (r : RandDraws) (s : BState) (id? : Option ℤ) (params : JVal)
        (h : ℕ), s.page = some h → jLookup params "url" = none →
      dispatchLine o r s (.request id? "navigate" params) =
        ⟨s, [⟨id?.getD 0, .error ⟨-32000, "url is required", some tbData⟩⟩], []⟩) ∧
    (∀ (o : Oracle) (r : RandDraws) (s : BState) (id? : Option ℤ) (params : JVal)
        (h : ℕ), s.page = some h → jLookup params "selector" = none →
      dispatchLine o r s (.request id? "click_element" params) =
        ⟨s, [⟨id?.getD 0, .error ⟨-32000, "selector is required", some tbData⟩⟩], []⟩) ∧
    (∀ (o : Oracle) (r : RandDraws) (s : BState) (id? : Option ℤ) (params : JVal)
        (h : ℕ), s.page = some h → jLookup params "selector" = none →
      dispatchLine o r s (.request id? "type_text" params) =
        ⟨s, [⟨id?.getD 0, .error ⟨-32000, "selector is required", some tbData⟩⟩], []⟩) ∧
    (∀ (o : Oracle) (r : RandDraws) (s : BState) (id? : Option ℤ) (params : JVal)
        (h : ℕ), s.page = some h → jLookup params "code" = none →
      dispatchLine o r s (.request id? "execute_js" params) =
        ⟨s, [⟨id?.getD 0, .error ⟨-32000, "code is required", some tbData⟩⟩], []⟩) ∧
    (∀ (o : Oracle) (r : RandDraws) (s : BState) (id? : Option ℤ) (params : JVal)
        (h : ℕ), s.page = some h → jLookup params "x" = none →
      jLookup params "y" = none →
      DriverCall.actionsClick 0 0 ∈
        (dispatchLine o r s (.request id? "click_xy" params)).calls) := by
  refine ⟨?_, ?_, ?_, ?_, ?_⟩
  · intro o r s id? params h hpage hurl
    have hu : jGet params "url" (.str "") = .str "" := by simp [jGet, hurl]
    have hnav : handle_navigate o s params = ⟨s, .error "url is required", []⟩ := by
      simp [handle_navigate, hu, pyTruthy]
    rw [dispatchLine_error o r s id? "navigate" params _ _ rfl
      (by simp [hpage]) (by rw [hnav])]
    rw [hnav]
  · intro o r s id? params h hpage hsel
    have hu : jGet params "selector" (.str "") = .str "" := by simp [jGet, hsel]
    have hh : handle_click_element o r s params =
        ⟨s, .error "selector is required", []⟩ := by
      simp [handle_click_element, hu, pyTruthy]
    rw [dispatchLine_error o r s id? "click_element" params _ _ rfl
      (by simp [hpage]) (by rw [hh])]
    rw [hh]
  · intro o r s id? params h hpage hsel
    have hu : jGet params "selector" (.str "") = .str "" := by simp [jGet, hsel]
    have hh : handle_type_text o s params =
        ⟨s, .error "selector is required", []⟩ := by
      simp [handle_type_text, hu, pyTruthy]
    rw [dispatchLine_error o r s id? "type_text" params _ _ rfl
      (by simp [hpage]) (by rw [hh])]
    rw [hh]
  · intro o r s id? params h hpage hcode
    have hu : jGet params "code" (.str "") = .str "" := by simp [jGet, hcode]
    have hh : handle_execute_js o s params = ⟨s, .error "code is required", []⟩ := by
      simp [handle_execute_js, hu, pyTruthy]
    rw [dispatchLine_error o r s id? "execute_js" params _ _ rfl
      (by simp [hpage]) (by rw [hh])]
    rw [hh]
  · intro o r s id? params h hpage hx hy
    have hxv : jGet params "x" (.num 0) = .num 0 := by simp [jGet, hx]
    have hyv : jGet params "y" (.num 0) = .num 0 := by simp [jGet, hy]
    rw [dispatchLine_calls_eq o r s id? "click_xy" params _ rfl (by simp [hpage])]
    simp only [handle_click_xy, hxv, hyv, pyInt, drv]
    split <;> rename_i hq <;> simp only [Prod.mk.injEq] at hq <;>
      rw [← hq.2] <;> simp

/-- C2 witness: the spec's end-to-end scenario — a Ready-state `navigate`
with `{}` params fails with -32000 "url is required" and no driver call. -/
theorem required_param_validation_witness :
    dispatchLine oracleAllOk rand0 ⟨some 0, .obj []⟩
        (.request (some 2) "navigate" (.obj [])) =
      ⟨⟨some 0, .obj []⟩,
       [⟨2, .error ⟨-32000, "url is required", some tbData⟩⟩], []⟩ :=
  required_param_validation.1 oracleAllOk rand0 ⟨some 0, .obj []⟩ (some 2)
    (.obj []) 0 rfl rfl
